import Mathlib

/-!
Shallow embedding of the event-sourced bank-account core of `rust-cqrs-bank`:
the value objects (`src/src/model/mod.rs`), the command/event protocol
(`src/src/model/bank_account/protocol.rs`), the business-rule services
(`src/src/services.rs`), the account state machine
(`src/src/model/bank_account.rs`) and the read projection
(`src/src/queries/mod.rs`).

Modelling conventions:
* `Money` (crate `money2`) carries a signed decimal amount and a currency
  code; the decimal amount is embedded as `ℚ`.  Arithmetic on `Money` acts
  on the amounts and keeps the left operand's currency; ordering compares
  the amounts.  `Currency` is embedded by a representative subset of the
  ISO currency enum used by the repository (USD, EUR, JPY).
* Rust newtype wrappers (`AccountId(i64)`, `AtmId(String)`,
  `CheckNumber(u32)`, `MailingAddress(String)`, `EmailAddress(String)`) are
  embedded as abbreviations of their payload types; `u32`/`i64` are
  embedded as `Nat`/`Int` (no claim involves integer overflow).
* The static exchange-rate table (`EXCHANGE_RATES`, loaded from a resource
  file at process start) is embedded as an explicit parameter
  `rates : Currency → Currency → ℚ`; `Money::exchange` multiplies the
  amount by the source→target rate.
* `async fn handle` performs no concurrency: it suspends only on the
  business-rule service calls, whose responses are embedded as `Except`
  values supplied by a `BankAccountApi` record (the trait object); it is
  embedded as a pure function.
* `pretty_snowflake::Id<BankAccount>` is embedded by its numeric payload
  (the `Active`/`Closed` states set it from `account_id.into()`, which
  preserves the number).
* Error messages built with `format!` interpolate the Rust `Debug`
  rendering of values; the embedding renders just the variant name, which
  no claim depends on.
-/

/-- Currency code of the `money2` crate (representative subset of the ISO
currency enum). -/
inductive Currency where
  | Usd
  | Eur
  | Jpy
deriving DecidableEq, Repr

/-- `money2::Money`: a signed decimal amount plus a currency code. -/
structure Money where
  amount : ℚ
  currency : Currency
deriving DecidableEq, Repr

/-- `Money::new(amount, exponent, currency)` builds `amount · 10^(-exponent)`
in `currency`. -/
def Money.new (amount : Int) (exponent : Nat) (currency : Currency) : Money :=
  ⟨(amount : ℚ) / 10 ^ exponent, currency⟩

instance : Add Money := ⟨fun a b => ⟨a.amount + b.amount, a.currency⟩⟩

instance : Sub Money := ⟨fun a b => ⟨a.amount - b.amount, a.currency⟩⟩

instance : Mul Money := ⟨fun a b => ⟨a.amount * b.amount, a.currency⟩⟩

instance : LE Money := ⟨fun a b => a.amount ≤ b.amount⟩

instance (a b : Money) : Decidable (a ≤ b) :=
  inferInstanceAs (Decidable (a.amount ≤ b.amount))

/-- `Money::default()`: zero amount.  (The repository never reads the
default currency; the view overrides it with USD explicitly.) -/
def Money.default : Money := ⟨0, Currency.Usd⟩

/-- `pub static ZERO_MONEY: Lazy<Money> = Lazy::new(|| Money::new(0, 2, Currency::Usd));` -/
def ZERO_MONEY : Money := Money.new 0 2 Currency.Usd

/-- `AccountId(i64)` newtype. -/
abbrev AccountId := Int

/-- `MailingAddress(String)` newtype. -/
abbrev MailingAddress := String

/-- `EmailAddress(String)` newtype. -/
abbrev EmailAddress := String

/-- `AtmId(String)` newtype. -/
abbrev AtmId := String

/-- `CheckNumber(u32)` newtype. -/
abbrev CheckNumber := Nat

/-- `model::convert_amount(currency, amount)`: identity when the currencies
already agree, otherwise `amount.exchange(currency, &EXCHANGE_RATES)`,
which multiplies the amount by the source→target rate from the static
table (embedded as the `rates` parameter). -/
def convert_amount (rates : Currency → Currency → ℚ) (currency : Currency)
    (amount : Money) : Money :=
  if currency = amount.currency then amount
  else ⟨amount.amount * rates amount.currency currency, currency⟩

/-- `BankAccountCommand` (protocol.rs). -/
inductive BankAccountCommand where
  | OpenAccount (account_id : AccountId) (user_name : String)
      (mailing_address : MailingAddress) (email : EmailAddress)
  | DepositAmount (amount : Money)
  | WithdrawCash (amount : Money) (atm_id : AtmId)
  | DisburseCheck (check_nr : CheckNumber) (amount : Money)
  | ChangeMailingAddress (new_address : MailingAddress)
  | ChangeEmail (new_email : EmailAddress)
deriving DecidableEq, Repr

/-- `BankAccountEvent` (protocol.rs). -/
inductive BankAccountEvent where
  | AccountOpened (account_id : AccountId) (user_name : String)
      (mailing_address : MailingAddress) (email : EmailAddress)
  | BalanceDeposited (amount : Money)
  | CashWithdrawal (amount : Money)
  | CheckWithdrawal (check_nr : CheckNumber) (amount : Money)
  | MailingAddressUpdated (new_address : MailingAddress)
  | EmailUpdated (new_email : EmailAddress)
deriving DecidableEq, Repr

/-- `const VERSION: &str = "1.0";` -/
def VERSION : String := "1.0"

/-- `DomainEvent::event_type`: the `strum(serialize_all = "snake_case")`
display of the variant name. -/
def BankAccountEvent.event_type : BankAccountEvent → String
  | .AccountOpened .. => "account_opened"
  | .BalanceDeposited .. => "balance_deposited"
  | .CashWithdrawal .. => "cash_withdrawal"
  | .CheckWithdrawal .. => "check_withdrawal"
  | .MailingAddressUpdated .. => "mailing_address_updated"
  | .EmailUpdated .. => "email_updated"

/-- `DomainEvent::event_version`: the constant `VERSION`. -/
def BankAccountEvent.event_version (_ : BankAccountEvent) : String := VERSION

/-- Which constructor of `BankAccountEvent` a value was built with
(used to state that `event_type` characterises the variant). -/
def BankAccountEvent.variantIndex : BankAccountEvent → Nat
  | .AccountOpened .. => 0
  | .BalanceDeposited .. => 1
  | .CashWithdrawal .. => 2
  | .CheckWithdrawal .. => 3
  | .MailingAddressUpdated .. => 4
  | .EmailUpdated .. => 5

/-- `BankServiceError` (services.rs). -/
inductive BankServiceError where
  | Atm (reason : String)
  | InvalidCheck (account_id : AccountId) (check : CheckNumber)
deriving DecidableEq, Repr

/-- `BankAccountError` (model/bank_account/errors.rs). -/
inductive BankAccountError where
  | NotFound (account_id : AccountId)
  | InsufficientFunds (account_id : AccountId) (amount : Money)
  | BankServiceError (err : BankServiceError)
  | RejectedCommand (reason : String)
deriving DecidableEq, Repr

/-- The `BankAccountApi` trait: the two business-rule service calls, as the
responses the (async) implementation would give. -/
structure BankAccountApi where
  validate_atm_withdrawal : AtmId → Money → Except BankServiceError Unit
  validate_check : AccountId → CheckNumber → Except BankServiceError Unit

/-- `HappyPathBankAccountServices`: the reference implementation, whose two
validations always succeed. -/
structure HappyPathBankAccountServices where

def HappyPathBankAccountServices.validate_atm_withdrawal
    (_ : HappyPathBankAccountServices) (_ : AtmId) (_ : Money) :
    Except BankServiceError Unit := .ok ()

def HappyPathBankAccountServices.validate_check
    (_ : HappyPathBankAccountServices) (_ : AccountId) (_ : CheckNumber) :
    Except BankServiceError Unit := .ok ()

/-- `BankAccountServices`: the concrete services enum (single `HappyPath`
variant) injected into the aggregate. -/
inductive BankAccountServices where
  | HappyPath (svc : HappyPathBankAccountServices)

def BankAccountServices.validate_atm_withdrawal :
    BankAccountServices → AtmId → Money → Except BankServiceError Unit
  | .HappyPath svc, atm_id, amount => svc.validate_atm_withdrawal atm_id amount

def BankAccountServices.validate_check :
    BankAccountServices → AccountId → CheckNumber → Except BankServiceError Unit
  | .HappyPath svc, account_id, check => svc.validate_check account_id check

/-- The trait-object view of `BankAccountServices` under which `handle`
invokes it. -/
def BankAccountServices.api (svcs : BankAccountServices) : BankAccountApi :=
  ⟨svcs.validate_atm_withdrawal, svcs.validate_check⟩

/-- `QuiescentBankAccount`: unit state, no account exists yet. -/
structure QuiescentBankAccount where
deriving DecidableEq, Repr

/-- `ActiveBankAccount` (bank_account.rs). -/
structure ActiveBankAccount where
  id : Int
  account_id : AccountId
  user_name : String
  balance : Money
  mailing_address : MailingAddress
  email : EmailAddress
deriving DecidableEq, Repr

/-- `ClosedBankAccount` (bank_account.rs). -/
structure ClosedBankAccount where
  id : Int
  account_id : AccountId
  user_name : String
  mailing_address : MailingAddress
  email : EmailAddress
deriving DecidableEq, Repr

/-- `BankAccountState`: the closed sum of the three state variants. -/
inductive BankAccountState where
  | Quiescent (state : QuiescentBankAccount)
  | Active (state : ActiveBankAccount)
  | Closed (state : ClosedBankAccount)
deriving DecidableEq, Repr

def BankAccountState.default : BankAccountState := .Quiescent ⟨⟩

/-- The `BankAccount` aggregate root: a wrapper around its state. -/
structure BankAccount where
  state : BankAccountState
deriving DecidableEq, Repr

def BankAccount.default : BankAccount := ⟨BankAccountState.default⟩

/-- Variant-name rendering of a command for error messages (the Rust code
interpolates the command's `Debug` representation). -/
def BankAccountCommand.render : BankAccountCommand → String
  | .OpenAccount .. => "OpenAccount"
  | .DepositAmount .. => "DepositAmount"
  | .WithdrawCash .. => "WithdrawCash"
  | .DisburseCheck .. => "DisburseCheck"
  | .ChangeMailingAddress .. => "ChangeMailingAddress"
  | .ChangeEmail .. => "ChangeEmail"

/-- `QuiescentBankAccount::handle`: only `OpenAccount` is accepted. -/
def QuiescentBankAccount.handle (_ : QuiescentBankAccount)
    (command : BankAccountCommand) (_services : BankAccountApi) :
    Except BankAccountError (List BankAccountEvent) :=
  match command with
  | .OpenAccount account_id user_name mailing_address email =>
      .ok [.AccountOpened account_id user_name mailing_address email]
  | cmd =>
      .error (.RejectedCommand
        ("Unopened account cannot process command: " ++ cmd.render))

/-- `QuiescentBankAccount::apply`: `AccountOpened` activates the account
with a default (zero) balance; every other event is ignored. -/
def QuiescentBankAccount.apply (_ : QuiescentBankAccount)
    (event : BankAccountEvent) : Option BankAccountState :=
  match event with
  | .AccountOpened account_id user_name mailing_address email =>
      some (.Active
        { id := account_id
          account_id
          user_name
          balance := Money.default
          mailing_address
          email })
  | _ => none

/-- `ActiveBankAccount::check_funds_available`: remaining balance after the
drawdown must be at least `ZERO_MONEY`. -/
def ActiveBankAccount.check_funds_available (self : ActiveBankAccount)
    (amount : Money) : Except BankAccountError Money :=
  let balance := self.balance - amount
  if ZERO_MONEY ≤ balance then .ok balance
  else .error (.InsufficientFunds self.account_id amount)

/-- `ActiveBankAccount::do_handle_cash_withdrawal`: funds check first (the
`?` operator returns its error immediately), then the ATM service call. -/
def ActiveBankAccount.do_handle_cash_withdrawal (self : ActiveBankAccount)
    (amount : Money) (atm_id : AtmId) (services : BankAccountApi) :
    Except BankAccountError (List BankAccountEvent) :=
  match self.check_funds_available amount with
  | .error e => .error e
  | .ok _remaining_balance =>
      match services.validate_atm_withdrawal atm_id amount with
      | .error e => .error (.BankServiceError e)
      | .ok _ => .ok [.CashWithdrawal amount]

/-- `ActiveBankAccount::do_handle_check_disbursement`: funds check first,
then the check-validation service call. -/
def ActiveBankAccount.do_handle_check_disbursement (self : ActiveBankAccount)
    (check_nr : CheckNumber) (amount : Money) (services : BankAccountApi) :
    Except BankAccountError (List BankAccountEvent) :=
  match self.check_funds_available amount with
  | .error e => .error e
  | .ok _remaining_balance =>
      match services.validate_check self.account_id check_nr with
      | .error e => .error (.BankServiceError e)
      | .ok _ => .ok [.CheckWithdrawal check_nr amount]

/-- `ActiveBankAccount::handle`. -/
def ActiveBankAccount.handle (self : ActiveBankAccount)
    (command : BankAccountCommand) (services : BankAccountApi) :
    Except BankAccountError (List BankAccountEvent) :=
  match command with
  | .OpenAccount .. =>
      .error (.RejectedCommand
        ("Active account " ++ toString self.account_id ++ " cannot be reopened."))
  | .DepositAmount amount => .ok [.BalanceDeposited amount]
  | .WithdrawCash amount atm_id =>
      self.do_handle_cash_withdrawal amount atm_id services
  | .DisburseCheck check_nr amount =>
      self.do_handle_check_disbursement check_nr amount services
  | .ChangeMailingAddress new_address =>
      .ok [.MailingAddressUpdated new_address]
  | .ChangeEmail new_email => .ok [.EmailUpdated new_email]

/-- `ActiveBankAccount::apply`: deposits add, withdrawals subtract
unconditionally ("ignoring negative balance here"), contact updates replace
the field; anything else is ignored. -/
def ActiveBankAccount.apply (self : ActiveBankAccount)
    (event : BankAccountEvent) : Option BankAccountState :=
  match event with
  | .BalanceDeposited amount =>
      some (.Active { self with balance := self.balance + amount })
  | .CashWithdrawal amount =>
      some (.Active { self with balance := self.balance - amount })
  | .CheckWithdrawal _ amount =>
      some (.Active { self with balance := self.balance - amount })
  | .MailingAddressUpdated new_address =>
      some (.Active { self with mailing_address := new_address })
  | .EmailUpdated new_email =>
      some (.Active { self with email := new_email })
  | _ => none

/-- `ClosedBankAccount::handle`: every command is rejected. -/
def ClosedBankAccount.handle (_ : ClosedBankAccount)
    (command : BankAccountCommand) (_services : BankAccountApi) :
    Except BankAccountError (List BankAccountEvent) :=
  .error (.RejectedCommand
    ("Closed account will not accept command: " ++ command.render))

/-- `ClosedBankAccount::apply`: dead-end state, every event is ignored. -/
def ClosedBankAccount.apply (_ : ClosedBankAccount)
    (_event : BankAccountEvent) : Option BankAccountState := none

/-- `AggregateState::handle` dispatch on the state variant. -/
def BankAccountState.handle : BankAccountState → BankAccountCommand →
    BankAccountApi → Except BankAccountError (List BankAccountEvent)
  | .Quiescent state, command, services => state.handle command services
  | .Active state, command, services => state.handle command services
  | .Closed state, command, services => state.handle command services

/-- `AggregateState::apply` dispatch on the state variant. -/
def BankAccountState.apply : BankAccountState → BankAccountEvent →
    Option BankAccountState
  | .Quiescent state, event => state.apply event
  | .Active state, event => state.apply event
  | .Closed state, event => state.apply event

/-- `Aggregate::handle` for `BankAccount`: delegate to the state. -/
def BankAccount.handle (self : BankAccount) (command : BankAccountCommand)
    (services : BankAccountApi) :
    Except BankAccountError (List BankAccountEvent) :=
  self.state.handle command services

/-- `Aggregate::apply` for `BankAccount`: replace the state when the event
is recognized, keep it unchanged otherwise. -/
def BankAccount.apply (self : BankAccount) (event : BankAccountEvent) :
    BankAccount :=
  match self.state.apply event with
  | some new_state => ⟨new_state⟩
  | none => self

/-- The command/commit loop of the engine for one aggregate instance: each
command is handled against the current state; an accepted command's events
are committed (appended to the history) and applied in order, a rejected
command leaves state and history untouched.  Returns the incremental
terminal state and the full committed event history. -/
def runCommands (services : BankAccountApi) :
    BankAccount → List BankAccountCommand →
    BankAccount × List BankAccountEvent
  | account, [] => (account, [])
  | account, command :: rest =>
      match account.handle command services with
      | .ok events =>
          let next := events.foldl BankAccount.apply account
          ((runCommands services next rest).1,
            events ++ (runCommands services next rest).2)
      | .error _ => runCommands services account rest

/-- `LedgerEntry` (queries/mod.rs). -/
structure LedgerEntry where
  description : String
  amount : Money
deriving DecidableEq, Repr

/-- `BankAccountView` (queries/mod.rs). -/
structure BankAccountView where
  account_id : Option AccountId
  balance : Money
  written_checks : List CheckNumber
  ledger : List LedgerEntry
deriving DecidableEq, Repr

/-- `Default for BankAccountView`: empty view with a zero USD balance. -/
def BankAccountView.default : BankAccountView :=
  ⟨none, ⟨0, Currency.Usd⟩, [], []⟩

/-- `make_neg_factor(currency) = Money::new(-1, 0, currency)`. -/
def make_neg_factor (currency : Currency) : Money :=
  Money.new (-1) 0 currency

/-- `View::<BankAccount>::update`, on the event payload of the committed
envelope. -/
def BankAccountView.update (rates : Currency → Currency → ℚ)
    (self : BankAccountView) (event : BankAccountEvent) : BankAccountView :=
  match event with
  | .AccountOpened account_id _ _ _ =>
      { self with account_id := some account_id }
  | .BalanceDeposited amount =>
      let ledger := self.ledger ++ [LedgerEntry.mk "deposit" amount]
      let converted := convert_amount rates self.balance.currency amount
      { self with ledger, balance := self.balance + converted }
  | .CashWithdrawal amount =>
      let debit := make_neg_factor amount.currency * amount
      let ledger := self.ledger ++ [LedgerEntry.mk "ATM withdrawal" debit]
      let converted := convert_amount rates self.balance.currency amount
      { self with ledger, balance := self.balance - converted }
  | .CheckWithdrawal check_nr amount =>
      let debit := make_neg_factor amount.currency * amount
      let ledger :=
        self.ledger ++ [LedgerEntry.mk ("Check " ++ toString check_nr) debit]
      let written_checks := self.written_checks ++ [check_nr]
      let converted := convert_amount rates self.balance.currency amount
      { self with ledger, written_checks, balance := self.balance - converted }
  | _ => self

/-- The signed total of a view's ledger, each entry converted into the
view's display currency. -/
def BankAccountView.ledgerTotal (rates : Currency → Currency → ℚ)
    (self : BankAccountView) : ℚ :=
  (self.ledger.map
    (fun entry => (convert_amount rates self.balance.currency entry.amount).amount)).sum

/-! ## Basic lemmas about the embedded `Money` operations -/

theorem Money.add_def (a b : Money) :
    a + b = ⟨a.amount + b.amount, a.currency⟩ := rfl

theorem Money.sub_def (a b : Money) :
    a - b = ⟨a.amount - b.amount, a.currency⟩ := rfl

theorem Money.mul_def (a b : Money) :
    a * b = ⟨a.amount * b.amount, a.currency⟩ := rfl

theorem Money.le_def (a b : Money) : a ≤ b ↔ a.amount ≤ b.amount := Iff.rfl

/-- The debit entry recorded by the view for a withdrawal converts to the
negation of what the converted credit amount would be. -/
theorem convert_amount_neg_factor (rates : Currency → Currency → ℚ)
    (c : Currency) (m : Money) :
    (convert_amount rates c (make_neg_factor m.currency * m)).amount
      = -(convert_amount rates c m).amount := by
  by_cases hc : c = m.currency <;>
    simp [convert_amount, make_neg_factor, Money.new, Money.mul_def, hc]

/-! ## Claim theorems -/

/-- C4: in the Active state, `apply` of `BalanceDeposited` adds the amount
to the balance; `CashWithdrawal` and `CheckWithdrawal` subtract it
unconditionally (no replay-time funds check); `MailingAddressUpdated` and
`EmailUpdated` replace the corresponding field; in all five cases the
resulting state is again Active. -/
theorem active_apply_event_semantics (a : ActiveBankAccount) (amount : Money)
    (check_nr : CheckNumber) (new_address : MailingAddress)
    (new_email : EmailAddress) :
    a.apply (.BalanceDeposited amount)
        = some (.Active { a with balance := a.balance + amount })
    ∧ a.apply (.CashWithdrawal amount)
        = some (.Active { a with balance := a.balance - amount })
    ∧ a.apply (.CheckWithdrawal check_nr amount)
        = some (.Active { a with balance := a.balance - amount })
    ∧ a.apply (.MailingAddressUpdated new_address)
        = some (.Active { a with mailing_address := new_address })
    ∧ a.apply (.EmailUpdated new_email)
        = some (.Active { a with email := new_email }) :=
  ⟨rfl, rfl, rfl, rfl, rfl⟩

/-- C5: the view's `update` sets `account_id` on `AccountOpened`; appends a
ledger entry and adjusts the converted balance on `BalanceDeposited`,
`CashWithdrawal` and `CheckWithdrawal` (the latter also recording the check
number); leaves the view unchanged on every other event; and conversion is
a no-op when the target currency equals the amount's currency. -/
theorem view_update_semantics (rates : Currency → Currency → ℚ)
    (v : BankAccountView) (account_id : AccountId) (user_name : String)
    (mailing_address : MailingAddress) (email : EmailAddress)
    (amount : Money) (check_nr : CheckNumber)
    (new_address : MailingAddress) (new_email : EmailAddress) :
    v.update rates (.AccountOpened account_id user_name mailing_address email)
        = { v with account_id := some account_id }
    ∧ v.update rates (.BalanceDeposited amount)
        = { v with
            ledger := v.ledger ++ [⟨"deposit", amount⟩]
            balance := v.balance + convert_amount rates v.balance.currency amount }
    ∧ v.update rates (.CashWithdrawal amount)
        = { v with
            ledger := v.ledger
              ++ [⟨"ATM withdrawal", make_neg_factor amount.currency * amount⟩]
            balance := v.balance - convert_amount rates v.balance.currency amount }
    ∧ v.update rates (.CheckWithdrawal check_nr amount)
        = { v with
            ledger := v.ledger
              ++ [⟨"Check " ++ toString check_nr,
                    make_neg_factor amount.currency * amount⟩]
            written_checks := v.written_checks ++ [check_nr]
            balance := v.balance - convert_amount rates v.balance.currency amount }
    ∧ v.update rates (.MailingAddressUpdated new_address) = v
    ∧ v.update rates (.EmailUpdated new_email) = v
    ∧ convert_amount rates amount.currency amount = amount :=
  ⟨rfl, rfl, rfl, rfl, rfl, rfl, by simp [convert_amount]⟩

/-- C10: applying the three monetary events to an Active account changes
only the `balance` field; `MailingAddressUpdated` changes only
`mailing_address` and `EmailUpdated` changes only `email`, leaving the
balance and all other fields unchanged. -/
theorem active_apply_frame (a : ActiveBankAccount) (amount : Money)
    (check_nr : CheckNumber) (new_address : MailingAddress)
    (new_email : EmailAddress) :
    (∃ b, a.apply (.BalanceDeposited amount) = some (.Active b)
      ∧ b.id = a.id ∧ b.account_id = a.account_id ∧ b.user_name = a.user_name
      ∧ b.mailing_address = a.mailing_address ∧ b.email = a.email)
    ∧ (∃ b, a.apply (.CashWithdrawal amount) = some (.Active b)
      ∧ b.id = a.id ∧ b.account_id = a.account_id ∧ b.user_name = a.user_name
      ∧ b.mailing_address = a.mailing_address ∧ b.email = a.email)
    ∧ (∃ b, a.apply (.CheckWithdrawal check_nr amount) = some (.Active b)
      ∧ b.id = a.id ∧ b.account_id = a.account_id ∧ b.user_name = a.user_name
      ∧ b.mailing_address = a.mailing_address ∧ b.email = a.email)
    ∧ (∃ b, a.apply (.MailingAddressUpdated new_address) = some (.Active b)
      ∧ b.mailing_address = new_address ∧ b.balance = a.balance
      ∧ b.id = a.id ∧ b.account_id = a.account_id ∧ b.user_name = a.user_name
      ∧ b.email = a.email)
    ∧ (∃ b, a.apply (.EmailUpdated new_email) = some (.Active b)
      ∧ b.email = new_email ∧ b.balance = a.balance
      ∧ b.id = a.id ∧ b.account_id = a.account_id ∧ b.user_name = a.user_name
      ∧ b.mailing_address = a.mailing_address) :=
  ⟨⟨_, rfl, rfl, rfl, rfl, rfl, rfl⟩,
   ⟨_, rfl, rfl, rfl, rfl, rfl, rfl⟩,
   ⟨_, rfl, rfl, rfl, rfl, rfl, rfl⟩,
   ⟨_, rfl, rfl, rfl, rfl, rfl, rfl, rfl⟩,
   ⟨_, rfl, rfl, rfl, rfl, rfl, rfl, rfl⟩⟩

/-- C8: every event's `event_version` is the constant string "1.0", and
`event_type` is a tag determined exactly by the event's variant: two events
have the same tag iff they were built with the same constructor. -/
theorem event_type_and_version_stable :
    (∀ e : BankAccountEvent, e.event_version = "1.0")
    ∧ ∀ e1 e2 : BankAccountEvent,
        e1.event_type = e2.event_type ↔ e1.variantIndex = e2.variantIndex := by
  refine ⟨fun e => rfl, fun e1 e2 => ?_⟩
  cases e1 <;> cases e2 <;>
    simp [BankAccountEvent.event_type, BankAccountEvent.variantIndex]

/-- C7: an event not recognized by the current state variant is a no-op:
in Quiescent every event other than `AccountOpened` yields no new state, in
Closed every event yields no new state, and whenever the state-level
`apply` yields no new state the aggregate-level `apply` leaves the
aggregate unchanged. -/
theorem unrecognized_event_noop (e : BankAccountEvent)
    (c : ClosedBankAccount) (b : BankAccount) :
    ((∀ account_id user_name mailing_address email,
        e ≠ .AccountOpened account_id user_name mailing_address email) →
      BankAccountState.apply (.Quiescent ⟨⟩) e = none)
    ∧ BankAccountState.apply (.Closed c) e = none
    ∧ (b.state.apply e = none → b.apply e = b) := by
  refine ⟨fun h => ?_, rfl, fun h => ?_⟩
  · cases e with
    | AccountOpened account_id user_name mailing_address email =>
        exact absurd rfl (h account_id user_name mailing_address email)
    | _ => rfl
  · simp [BankAccount.apply, h]

/-- C7 witness: a `BalanceDeposited` event is ignored by the Quiescent and
Closed states and leaves a quiescent aggregate unchanged. -/
theorem unrecognized_event_noop_example :
    BankAccountState.apply (.Quiescent ⟨⟩)
        (.BalanceDeposited ⟨1, Currency.Usd⟩) = none
    ∧ BankAccountState.apply (.Closed ⟨1, 1, "otis", "addr", "mail"⟩)
        (.BalanceDeposited ⟨1, Currency.Usd⟩) = none
    ∧ BankAccount.apply ⟨.Quiescent ⟨⟩⟩ (.BalanceDeposited ⟨1, Currency.Usd⟩)
        = ⟨.Quiescent ⟨⟩⟩ :=
  have h := unrecognized_event_noop (.BalanceDeposited ⟨1, Currency.Usd⟩)
    ⟨1, 1, "otis", "addr", "mail"⟩ ⟨.Quiescent ⟨⟩⟩
  ⟨h.1 (by simp), h.2.1, h.2.2 rfl⟩

/-- C2: every (state, command) pair outside the emitting rows of the
state-by-command table — Quiescent with anything but `OpenAccount`, Active
with `OpenAccount`, and Closed with every command — is rejected by `handle`
with a `RejectedCommand` error (and hence produces zero events). -/
theorem non_emitting_pairs_rejected (api : BankAccountApi)
    (cmd : BankAccountCommand) (a : ActiveBankAccount)
    (c : ClosedBankAccount) :
    ((¬ ∃ account_id user_name mailing_address email,
        cmd = .OpenAccount account_id user_name mailing_address email) →
      ∃ msg, BankAccountState.handle (.Quiescent ⟨⟩) cmd api
        = .error (.RejectedCommand msg))
    ∧ (∀ account_id user_name mailing_address email,
        ∃ msg, BankAccountState.handle (.Active a)
            (.OpenAccount account_id user_name mailing_address email) api
          = .error (.RejectedCommand msg))
    ∧ (∃ msg, BankAccountState.handle (.Closed c) cmd api
        = .error (.RejectedCommand msg)) := by
  refine ⟨fun h => ?_, fun account_id user_name mailing_address email => ?_, ?_⟩
  · cases cmd with
    | OpenAccount account_id user_name mailing_address email =>
        exact absurd ⟨account_id, user_name, mailing_address, email, rfl⟩ h
    | DepositAmount amount => exact ⟨_, rfl⟩
    | WithdrawCash amount atm_id => exact ⟨_, rfl⟩
    | DisburseCheck check_nr amount => exact ⟨_, rfl⟩
    | ChangeMailingAddress new_address => exact ⟨_, rfl⟩
    | ChangeEmail new_email => exact ⟨_, rfl⟩
  · exact ⟨_, rfl⟩
  · exact ⟨_, rfl⟩

/-- C2 witness: a deposit against an unopened account, a reopen of an
active account, and a deposit against a closed account are each rejected
with `RejectedCommand`. -/
theorem non_emitting_pairs_rejected_example :
    (∃ msg, BankAccountState.handle (.Quiescent ⟨⟩)
        (.DepositAmount ⟨1, Currency.Usd⟩)
        (BankAccountServices.HappyPath ⟨⟩).api
      = .error (.RejectedCommand msg))
    ∧ (∃ msg, BankAccountState.handle
        (.Active ⟨1, 1, "otis", ⟨0, Currency.Usd⟩, "addr", "mail"⟩)
        (.OpenAccount 1 "otis" "addr" "mail")
        (BankAccountServices.HappyPath ⟨⟩).api
      = .error (.RejectedCommand msg))
    ∧ (∃ msg, BankAccountState.handle (.Closed ⟨1, 1, "otis", "addr", "mail"⟩)
        (.DepositAmount ⟨1, Currency.Usd⟩)
        (BankAccountServices.HappyPath ⟨⟩).api
      = .error (.RejectedCommand msg)) :=
  have h := non_emitting_pairs_rejected (BankAccountServices.HappyPath ⟨⟩).api
    (.DepositAmount ⟨1, Currency.Usd⟩)
    ⟨1, 1, "otis", ⟨0, Currency.Usd⟩, "addr", "mail"⟩
    ⟨1, 1, "otis", "addr", "mail"⟩
  ⟨h.1 (by simp), h.2.1 1 "otis" "addr" "mail", h.2.2⟩

/-- `check_funds_available` written as a plain conditional. -/
theorem check_funds_available_eq_ite (a : ActiveBankAccount) (amount : Money) :
    a.check_funds_available amount
      = if ZERO_MONEY ≤ a.balance - amount
        then .ok (a.balance - amount)
        else .error (.InsufficientFunds a.account_id amount) := rfl

/-- C1: for an Active account, `WithdrawCash` and `DisburseCheck` are
accepted iff `balance - amount` is at least zero (zero remaining balance
allowed); whenever `balance - amount` is below zero, `handle` returns
`InsufficientFunds(account_id, amount)` and emits zero events no matter
which service responses are injected (the service is never consulted),
while with the repository's actual services enum acceptance is exactly the
funds condition. -/
theorem active_withdrawal_funds_check (api : BankAccountApi)
    (a : ActiveBankAccount) (amount : Money) (atm_id : AtmId)
    (check_nr : CheckNumber) (_hcur : amount.currency = a.balance.currency) :
    (¬ ZERO_MONEY ≤ a.balance - amount →
      a.handle (.WithdrawCash amount atm_id) api
          = .error (.InsufficientFunds a.account_id amount)
      ∧ a.handle (.DisburseCheck check_nr amount) api
          = .error (.InsufficientFunds a.account_id amount))
    ∧ (∀ svcs : BankAccountServices,
        ((∃ events, a.handle (.WithdrawCash amount atm_id) svcs.api
            = .ok events) ↔ ZERO_MONEY ≤ a.balance - amount)
        ∧ ((∃ events, a.handle (.DisburseCheck check_nr amount) svcs.api
            = .ok events) ↔ ZERO_MONEY ≤ a.balance - amount)) := by
  constructor
  · intro hlt
    have hcf : a.check_funds_available amount
        = .error (.InsufficientFunds a.account_id amount) := by
      rw [check_funds_available_eq_ite, if_neg hlt]
    constructor
    · simp [ActiveBankAccount.handle,
        ActiveBankAccount.do_handle_cash_withdrawal, hcf]
    · simp [ActiveBankAccount.handle,
        ActiveBankAccount.do_handle_check_disbursement, hcf]
  · intro svcs
    obtain ⟨svc⟩ := svcs
    by_cases hle : ZERO_MONEY ≤ a.balance - amount
    · have hcf : a.check_funds_available amount = .ok (a.balance - amount) := by
        rw [check_funds_available_eq_ite, if_pos hle]
      constructor
      · simp only [ActiveBankAccount.handle,
          ActiveBankAccount.do_handle_cash_withdrawal, hcf,
          BankAccountServices.api, BankAccountServices.validate_atm_withdrawal,
          HappyPathBankAccountServices.validate_atm_withdrawal]
        exact iff_of_true ⟨_, rfl⟩ hle
      · simp only [ActiveBankAccount.handle,
          ActiveBankAccount.do_handle_check_disbursement, hcf,
          BankAccountServices.api, BankAccountServices.validate_check,
          HappyPathBankAccountServices.validate_check]
        exact iff_of_true ⟨_, rfl⟩ hle
    · have hcf : a.check_funds_available amount
          = .error (.InsufficientFunds a.account_id amount) := by
        rw [check_funds_available_eq_ite, if_neg hle]
      constructor
      · simp only [ActiveBankAccount.handle,
          ActiveBankAccount.do_handle_cash_withdrawal, hcf]
        exact iff_of_false (by simp) hle
      · simp only [ActiveBankAccount.handle,
          ActiveBankAccount.do_handle_check_disbursement, hcf]
        exact iff_of_false (by simp) hle

/-- C1 witness: withdrawing 5 USD in cash (or by check 873487) from a
0-USD Active account is rejected with `InsufficientFunds` under the
happy-path services. -/
theorem active_withdrawal_funds_check_example :
    (ActiveBankAccount.mk 1 1 "otis" ⟨0, Currency.Usd⟩ "addr" "mail").handle
        (.WithdrawCash ⟨5, Currency.Usd⟩ "abc_123")
        (BankAccountServices.HappyPath ⟨⟩).api
      = .error (.InsufficientFunds 1 ⟨5, Currency.Usd⟩)
    ∧ (ActiveBankAccount.mk 1 1 "otis" ⟨0, Currency.Usd⟩ "addr" "mail").handle
        (.DisburseCheck 873487 ⟨5, Currency.Usd⟩)
        (BankAccountServices.HappyPath ⟨⟩).api
      = .error (.InsufficientFunds 1 ⟨5, Currency.Usd⟩) :=
  (active_withdrawal_funds_check (BankAccountServices.HappyPath ⟨⟩).api
    ⟨1, 1, "otis", ⟨0, Currency.Usd⟩, "addr", "mail"⟩ ⟨5, Currency.Usd⟩
    "abc_123" 873487 rfl).1
    (by rw [Money.le_def]; norm_num [ZERO_MONEY, Money.new, Money.sub_def])

/-- C9: whenever `handle` succeeds — in any state, for any command and any
service responses — it returns exactly one event. -/
theorem handle_emits_single_event (s : BankAccountState)
    (cmd : BankAccountCommand) (api : BankAccountApi)
    (events : List BankAccountEvent)
    (h : s.handle cmd api = .ok events) : events.length = 1 := by
  cases s with
  | Quiescent q =>
      cases cmd with
      | OpenAccount account_id user_name mailing_address email =>
          simp only [BankAccountState.handle, QuiescentBankAccount.handle,
            Except.ok.injEq] at h
          cases h
          rfl
      | DepositAmount amount =>
          simp [BankAccountState.handle, QuiescentBankAccount.handle] at h
      | WithdrawCash amount atm_id =>
          simp [BankAccountState.handle, QuiescentBankAccount.handle] at h
      | DisburseCheck check_nr amount =>
          simp [BankAccountState.handle, QuiescentBankAccount.handle] at h
      | ChangeMailingAddress new_address =>
          simp [BankAccountState.handle, QuiescentBankAccount.handle] at h
      | ChangeEmail new_email =>
          simp [BankAccountState.handle, QuiescentBankAccount.handle] at h
  | Active a =>
      cases cmd with
      | OpenAccount account_id user_name mailing_address email =>
          simp [BankAccountState.handle, ActiveBankAccount.handle] at h
      | DepositAmount amount =>
          simp only [BankAccountState.handle, ActiveBankAccount.handle,
            Except.ok.injEq] at h
          cases h; rfl
      | WithdrawCash amount atm_id =>
          simp only [BankAccountState.handle, ActiveBankAccount.handle,
            ActiveBankAccount.do_handle_cash_withdrawal] at h
          split at h
          · cases h
          · split at h
            · cases h
            · simp only [Except.ok.injEq] at h
              cases h; rfl
      | DisburseCheck check_nr amount =>
          simp only [BankAccountState.handle, ActiveBankAccount.handle,
            ActiveBankAccount.do_handle_check_disbursement] at h
          split at h
          · cases h
          · split at h
            · cases h
            · simp only [Except.ok.injEq] at h
              cases h; rfl
      | ChangeMailingAddress new_address =>
          simp only [BankAccountState.handle, ActiveBankAccount.handle,
            Except.ok.injEq] at h
          cases h; rfl
      | ChangeEmail new_email =>
          simp only [BankAccountState.handle, ActiveBankAccount.handle,
            Except.ok.injEq] at h
          cases h; rfl
  | Closed c =>
      simp [BankAccountState.handle, ClosedBankAccount.handle] at h

/-- C9 witness: the one accepted command of a fresh account, `OpenAccount`,
emits exactly one event. -/
theorem handle_emits_single_event_example :
    ([BankAccountEvent.AccountOpened 1 "otis" "addr" "mail"] :
      List BankAccountEvent).length = 1 :=
  handle_emits_single_event (.Quiescent ⟨⟩) (.OpenAccount 1 "otis" "addr" "mail")
    (BankAccountServices.HappyPath ⟨⟩).api
    [BankAccountEvent.AccountOpened 1 "otis" "addr" "mail"] rfl

/-- The incremental state reached by the command/commit loop starting from
any aggregate value equals the fold of the whole committed history through
`apply` from that value. -/
theorem runCommands_state_eq_fold (services : BankAccountApi)
    (cmds : List BankAccountCommand) :
    ∀ account : BankAccount,
      (runCommands services account cmds).2.foldl BankAccount.apply account
        = (runCommands services account cmds).1 := by
  induction cmds with
  | nil => intro account; rfl
  | cons command rest ih =>
      intro account
      simp only [runCommands]
      cases h : account.handle command services with
      | ok events =>
          simp only [List.foldl_append]
          exact ih (events.foldl BankAccount.apply account)
      | error e => exact ih account

/-- C6: for every command sequence executed against one account (each
accepted command committing and applying its events in turn), replaying the
full committed event history through `apply` from the default (Quiescent)
aggregate reproduces exactly the terminal state reached incrementally. -/
theorem replay_reproduces_incremental_state (services : BankAccountApi)
    (cmds : List BankAccountCommand) :
    (runCommands services BankAccount.default cmds).2.foldl BankAccount.apply
        BankAccount.default
      = (runCommands services BankAccount.default cmds).1 :=
  runCommands_state_eq_fold services cmds BankAccount.default

/-- The view's display currency is never changed by `update`. -/
theorem view_update_balance_currency (rates : Currency → Currency → ℚ)
    (v : BankAccountView) (e : BankAccountEvent) :
    (v.update rates e).balance.currency = v.balance.currency := by
  cases e <;> rfl

/-- One `update` step preserves "balance equals the converted ledger
total". -/
theorem view_update_preserves_ledger_total (rates : Currency → Currency → ℚ)
    (v : BankAccountView) (e : BankAccountEvent)
    (h : v.balance.amount = v.ledgerTotal rates) :
    (v.update rates e).balance.amount = (v.update rates e).ledgerTotal rates := by
  cases e with
  | AccountOpened account_id user_name mailing_address email =>
      simpa [BankAccountView.update, BankAccountView.ledgerTotal] using h
  | BalanceDeposited amount =>
      simp [BankAccountView.update, BankAccountView.ledgerTotal,
        Money.add_def, h]
  | CashWithdrawal amount =>
      simp [BankAccountView.update, BankAccountView.ledgerTotal,
        Money.sub_def, convert_amount_neg_factor, sub_eq_add_neg, h]
  | CheckWithdrawal check_nr amount =>
      simp [BankAccountView.update, BankAccountView.ledgerTotal,
        Money.sub_def, convert_amount_neg_factor, sub_eq_add_neg, h]
  | MailingAddressUpdated new_address =>
      simpa [BankAccountView.update, BankAccountView.ledgerTotal] using h
  | EmailUpdated new_email =>
      simpa [BankAccountView.update, BankAccountView.ledgerTotal] using h

/-- Folding any event list through `update` preserves "balance equals the
converted ledger total". -/
theorem view_fold_ledger_total (rates : Currency → Currency → ℚ)
    (events : List BankAccountEvent) :
    ∀ v : BankAccountView,
      v.balance.amount = v.ledgerTotal rates →
      (events.foldl (BankAccountView.update rates) v).balance.amount
        = (events.foldl (BankAccountView.update rates) v).ledgerTotal rates := by
  induction events with
  | nil => intro v h; exact h
  | cons e rest ih =>
      intro v h
      exact ih (v.update rates e) (view_update_preserves_ledger_total rates v e h)

/-- C3: for every sequence of commands executed against one account, the
view built by folding the committed event history has a balance equal to
the signed sum of all its ledger entries' amounts converted into the view's
display currency. -/
theorem view_balance_eq_ledger_total (rates : Currency → Currency → ℚ)
    (services : BankAccountApi) (cmds : List BankAccountCommand) :
    ((runCommands services BankAccount.default cmds).2.foldl
        (BankAccountView.update rates) BankAccountView.default).balance.amount
      = ((runCommands services BankAccount.default cmds).2.foldl
        (BankAccountView.update rates) BankAccountView.default).ledgerTotal
          rates :=
  view_fold_ledger_total rates (runCommands services BankAccount.default cmds).2
    BankAccountView.default rfl
